import Mathlib

/-!
# Verification of the task orchestration and validation pipeline

Shallow embedding of the core of the repository (idempotency tracker,
artifact merge engine, check-evaluation engine, remediation pass) together
with proofs about the embedded definitions.

Conventions of the embedding:
* Python `dict[str, str]` values are modelled as insertion-ordered
  association lists with unique keys (`dget`/`dinsert`/`dupdate`/`derase`
  mirror indexing, item assignment, `dict.update` and `del`).
* `time.time()` float timestamps are modelled as rationals: only ordering
  and subtraction of timestamps occur in the code, and those are exact.
* External collaborators (the LLM generator, the JSON library, the optional
  BeautifulSoup structural parser, the `unicode_escape` codec) are modelled
  as explicit function parameters; everything the repository itself computes
  is embedded concretely.
* Text content is modelled as `String`; the `isinstance(content, bytes)`
  decode branches of the source are identities on text content.
-/

namespace Spec2Proof

/-! ## Python dict model -/

/-- `d[k]` / `d.get(k)`: the value stored at key `k`, if present. -/
def dget {κ α : Type} [DecidableEq κ] : List (κ × α) → κ → Option α
  | [], _ => none
  | (k', v) :: t, k => if k' = k then some v else dget t k

/-- `d[k] = v`: replace the value at `k` in place, else append at the end
(Python dicts preserve insertion order and keep the position on update). -/
def dinsert {κ α : Type} [DecidableEq κ] : List (κ × α) → κ → α → List (κ × α)
  | [], k, v => [(k, v)]
  | (k', v') :: t, k, v => if k' = k then (k, v) :: t else (k', v') :: dinsert t k v

/-- `d.update(u)`: item assignment for every pair of `u`, in order. -/
def dupdate {κ α : Type} [DecidableEq κ] (d u : List (κ × α)) : List (κ × α) :=
  u.foldl (fun acc p => dinsert acc p.1 p.2) d

/-- `del d[k]`: remove the entry with key `k` (the first one; keys are unique). -/
def derase {κ α : Type} [DecidableEq κ] : List (κ × α) → κ → List (κ × α)
  | [], _ => []
  | (k', v') :: t, k => if k' = k then t else (k', v') :: derase t k

/-- `d.get(k, default)`. -/
def dgetD {κ α : Type} [DecidableEq κ] (d : List (κ × α)) (k : κ) (dflt : α) : α :=
  match dget d k with
  | some v => v
  | none => dflt

theorem dget_dinsert_self {κ α : Type} [DecidableEq κ] (d : List (κ × α)) (k : κ) (v : α) :
    dget (dinsert d k v) k = some v := by
  induction d with
  | nil => simp [dinsert, dget]
  | cons p t ih =>
    obtain ⟨k', v'⟩ := p
    by_cases h : k' = k
    · simp [dinsert, h, dget]
    · simp [dinsert, h, dget, ih]

theorem dget_dinsert_ne {κ α : Type} [DecidableEq κ] (d : List (κ × α)) (k k' : κ) (v : α)
    (h : k' ≠ k) : dget (dinsert d k v) k' = dget d k' := by
  have h' : ¬ (k = k') := fun hh => h hh.symm
  induction d with
  | nil => simp [dinsert, dget, h']
  | cons p t ih =>
    obtain ⟨k₀, v₀⟩ := p
    by_cases h0 : k₀ = k
    · subst h0
      simp [dinsert, dget, h']
    · by_cases h1 : k₀ = k'
      · subst h1
        simp [dinsert, h0, dget]
      · simp [dinsert, h0, dget, h1, ih]

theorem dget_eq_none_of_not_mem_keys {κ α : Type} [DecidableEq κ]
    (d : List (κ × α)) (k : κ) (h : k ∉ d.map Prod.fst) : dget d k = none := by
  induction d with
  | nil => rfl
  | cons p t ih =>
    obtain ⟨k', v'⟩ := p
    simp only [List.map_cons, List.mem_cons] at h
    push_neg at h
    have h1 : ¬ (k' = k) := fun hh => h.1 hh.symm
    simp [dget, h1, ih h.2]

theorem dget_dupdate_of_none {κ α : Type} [DecidableEq κ]
    (d u : List (κ × α)) (k : κ) (h : dget u k = none) :
    dget (dupdate d u) k = dget d k := by
  induction u generalizing d with
  | nil => rfl
  | cons p t ih =>
    obtain ⟨k', v'⟩ := p
    simp only [dget] at h
    by_cases hk : k' = k
    · simp [hk] at h
    · simp only [if_neg hk] at h
      show dget (dupdate (dinsert d k' v') t) k = _
      rw [ih _ h, dget_dinsert_ne _ _ _ _ (fun hh => hk hh.symm)]

theorem dget_dupdate_of_some {κ α : Type} [DecidableEq κ]
    (d u : List (κ × α)) (k : κ) (v : α)
    (hnd : (u.map Prod.fst).Nodup) (h : dget u k = some v) :
    dget (dupdate d u) k = some v := by
  induction u generalizing d with
  | nil => simp [dget] at h
  | cons p t ih =>
    obtain ⟨k', v'⟩ := p
    simp only [List.map_cons, List.nodup_cons] at hnd
    simp only [dget] at h
    by_cases hk : k' = k
    · subst hk
      simp at h
      subst h
      have htn : dget t k' = none :=
        dget_eq_none_of_not_mem_keys _ _ hnd.1
      show dget (dupdate (dinsert d k' v') t) k' = _
      rw [dget_dupdate_of_none _ _ _ htn, dget_dinsert_self]
    · simp only [if_neg hk] at h
      exact ih _ hnd.2 h

/-! ## Idempotency tracker (`main.py`)

`request_tracker` maps a `(task, round, nonce)` tuple to a dict with keys
`status` (`"processing"`, `"completed"` or `"failed"`), `timestamp`,
`result` and, for failed entries, `error`. -/

/-- The `DeploymentRecord` dict produced by the publishing collaborator
(`repo_url`, `commit_sha`, `pages_url`). -/
structure Deployment where
  repo_url : String
  commit_sha : String
  pages_url : String
deriving DecidableEq, Repr

/-- One value of `request_tracker` in `main.py`. -/
structure TrackerEntry where
  status : String
  timestamp : ℚ
  result : Option Deployment
  error : Option String
deriving DecidableEq, Repr

/-- `request_key = (request.task, request.round, request.nonce)`. -/
abbrev RequestKey := String × Int × String

abbrev Tracker := List (RequestKey × TrackerEntry)

/-- `TRACKER_CLEANUP_INTERVAL = 900` (15 minutes in seconds). -/
def TRACKER_CLEANUP_INTERVAL : ℚ := 900

/-- Decision returned to the caller by the duplicate-detection logic of
`build_and_deploy`.  The source only distinguishes a `"processing"` and a
`"completed"` prior entry; every other case (no entry, or an entry in any
other status) falls through to acceptance. -/
inductive AdmitDecision where
  | accepted
  | duplicateProcessing
  | duplicateCompleted
deriving DecidableEq, Repr

/-- The admission logic of `build_and_deploy` (main.py lines 156-183): the
duplicate check on `request_tracker[request_key]` followed by the
unconditional `request_tracker[request_key] = {"status": "processing", ...}`
on fall-through. -/
def build_and_deploy_admission (tracker : Tracker) (key : RequestKey) (now : ℚ) :
    AdmitDecision × Tracker :=
  match dget tracker key with
  | some existing =>
    if existing.status = "processing" then
      (AdmitDecision.duplicateProcessing, tracker)
    else if existing.status = "completed" then
      (AdmitDecision.duplicateCompleted, tracker)
    else
      (AdmitDecision.accepted, dinsert tracker key ⟨"processing", now, none, none⟩)
  | none =>
    (AdmitDecision.accepted, dinsert tracker key ⟨"processing", now, none, none⟩)

/-- `cleanup_old_requests` (main.py lines 50-62): collect the keys whose age
exceeds `TRACKER_CLEANUP_INTERVAL`, then delete each collected key. -/
def cleanup_old_requests (now : ℚ) (tracker : Tracker) : Tracker :=
  let keys_to_remove :=
    (tracker.filter (fun p => decide (now - p.2.timestamp > TRACKER_CLEANUP_INTERVAL))).map
      Prod.fst
  keys_to_remove.foldl (fun acc k => derase acc k) tracker

/-- The tail of `process_task` (main.py lines 408-428): after generation and
deployment succeed, the notifier collaborator is invoked exactly once and its
boolean result (`notify_success`) is only branched on for logging — both
branches record the tracker entry as `"completed"` with the deployment
attached. -/
def process_task_record (tracker : Tracker) (key : RequestKey) (now : ℚ)
    (deployment : Deployment) (notify_success : Bool) : Tracker :=
  if notify_success then
    dinsert tracker key ⟨"completed", now, some deployment, none⟩
  else
    dinsert tracker key ⟨"completed", now, some deployment, none⟩

/-- The `except` handler of `process_task` (main.py lines 430-438): an
unhandled exception records the entry as `"failed"` with the error message. -/
def process_task_fail (tracker : Tracker) (key : RequestKey) (now : ℚ)
    (err : String) : Tracker :=
  dinsert tracker key ⟨"failed", now, none, some err⟩

theorem foldl_derase_cons {κ α : Type} [DecidableEq κ] (p : κ × α) (t : List (κ × α))
    (ks : List κ) (h : ∀ k ∈ ks, k ≠ p.1) :
    ks.foldl (fun acc k => derase acc k) (p :: t)
      = p :: ks.foldl (fun acc k => derase acc k) t := by
  induction ks generalizing t with
  | nil => rfl
  | cons k ks ih =>
    have hk : k ≠ p.1 := h k (List.mem_cons_self _ _)
    have hstep : derase (p :: t) k = p :: derase t k := by
      obtain ⟨k₀, v₀⟩ := p
      have hne : ¬ (k₀ = k) := fun hh => hk (by simp [hh])
      simp [derase, hne]
    simp only [List.foldl_cons, hstep]
    exact ih _ (fun k' hk' => h k' (List.mem_cons_of_mem _ hk'))

theorem foldl_derase_filter {κ α : Type} [DecidableEq κ] (f : κ × α → Bool)
    (l : List (κ × α)) (h : (l.map Prod.fst).Nodup) :
    ((l.filter f).map Prod.fst).foldl (fun acc k => derase acc k) l
      = l.filter (fun p => !f p) := by
  induction l with
  | nil => rfl
  | cons p t ih =>
    simp only [List.map_cons, List.nodup_cons] at h
    have ih' := ih h.2
    cases hf : f p with
    | true =>
      rw [List.filter_cons_of_pos hf, List.map_cons, List.foldl_cons]
      have hdp : derase (p :: t) p.1 = t := by
        obtain ⟨k₀, v₀⟩ := p
        simp [derase]
      rw [hdp, List.filter_cons_of_neg (by rw [hf]; exact Bool.false_ne_true)]
      exact ih'
    | false =>
      rw [List.filter_cons_of_neg (by rw [hf]; exact Bool.false_ne_true),
        List.filter_cons_of_pos (by rw [hf]; rfl)]
      rw [foldl_derase_cons p t _ ?_]
      · rw [ih']
      · intro k hkmem
        have hsub : k ∈ t.map Prod.fst := by
          rcases List.mem_map.1 hkmem with ⟨q, hq, rfl⟩
          exact List.mem_map.2 ⟨q, List.mem_of_mem_filter hq, rfl⟩
        intro hkeq
        exact h.1 (hkeq ▸ hsub)

theorem cleanup_eq_filter (now : ℚ) (tracker : Tracker)
    (h : (tracker.map Prod.fst).Nodup) :
    cleanup_old_requests now tracker
      = tracker.filter
          (fun p => !decide (now - p.2.timestamp > TRACKER_CLEANUP_INTERVAL)) := by
  unfold cleanup_old_requests
  exact foldl_derase_filter
    (fun p : RequestKey × TrackerEntry =>
      decide (now - p.2.timestamp > TRACKER_CLEANUP_INTERVAL)) tracker h

/-- Claim C1 (evaluation of the code at the failing input): a tracker entry in
the terminal status `"failed"` does NOT produce a duplicate decision on a
subsequent admission of the same `(task, round, nonce)` identity — the
admission logic of `build_and_deploy` only tests for `"processing"` and
`"completed"`, falls through, answers `accepted`, and overwrites the entry
back to `"processing"`. -/
theorem claim_C1_failed_entry_readmitted :
    (build_and_deploy_admission
        [((("task-1" : String), (1 : Int), ("nonce-1" : String)),
          ⟨"failed", 0, none, some "boom"⟩)]
        ("task-1", 1, "nonce-1") 100).1 = AdmitDecision.accepted
    ∧ dget (build_and_deploy_admission
        [((("task-1" : String), (1 : Int), ("nonce-1" : String)),
          ⟨"failed", 0, none, some "boom"⟩)]
        ("task-1", 1, "nonce-1") 100).2 ("task-1", 1, "nonce-1")
      = some ⟨"processing", 100, none, none⟩ := by
  constructor
  · rfl
  · rfl

/-- Claim C7: for every tracker state and every time `now`, the cleanup pass
removes exactly the entries whose age exceeds the 15-minute retention window
(`TRACKER_CLEANUP_INTERVAL`) and leaves every other entry untouched (the
result is the filtered tracker, in order), and a second pass with the same
`now` removes nothing further. -/
theorem claim_C7_sweep_exact_and_idempotent (now : ℚ) (tracker : Tracker)
    (h : (tracker.map Prod.fst).Nodup) :
    cleanup_old_requests now tracker
      = tracker.filter
          (fun p => !decide (now - p.2.timestamp > TRACKER_CLEANUP_INTERVAL))
    ∧ cleanup_old_requests now (cleanup_old_requests now tracker)
      = cleanup_old_requests now tracker := by
  have h1 := cleanup_eq_filter now tracker h
  refine ⟨h1, ?_⟩
  have hnd2 : (((tracker.filter
      (fun p => !decide (now - p.2.timestamp > TRACKER_CLEANUP_INTERVAL))).map
        Prod.fst)).Nodup :=
    List.Nodup.sublist ((List.filter_sublist _).map _) h
  rw [h1, cleanup_eq_filter now _ hnd2, List.filter_filter]
  congr 1
  funext p
  exact Bool.and_self _

/-- Witness for claim C7 at a concrete tracker: one entry aged 1001 seconds
(removed) and one aged 1 second (kept). -/
theorem claim_C7_sweep_witness :
    (((([ (("t1", 1, "n1"), ⟨"processing", 0, none, none⟩),
          (("t2", 1, "n2"), ⟨"completed", 1000, none, none⟩) ] : Tracker)).map
            Prod.fst).Nodup)
    ∧ (cleanup_old_requests 1001
          [ (("t1", 1, "n1"), ⟨"processing", 0, none, none⟩),
            (("t2", 1, "n2"), ⟨"completed", 1000, none, none⟩) ]
        = ([ (("t1", 1, "n1"), ⟨"processing", 0, none, none⟩),
             (("t2", 1, "n2"), ⟨"completed", 1000, none, none⟩) ] : Tracker).filter
            (fun p => !decide (1001 - p.2.timestamp > TRACKER_CLEANUP_INTERVAL))
      ∧ cleanup_old_requests 1001 (cleanup_old_requests 1001
          [ (("t1", 1, "n1"), ⟨"processing", 0, none, none⟩),
            (("t2", 1, "n2"), ⟨"completed", 1000, none, none⟩) ])
        = cleanup_old_requests 1001
            [ (("t1", 1, "n1"), ⟨"processing", 0, none, none⟩),
              (("t2", 1, "n2"), ⟨"completed", 1000, none, none⟩) ]) :=
  ⟨by decide, claim_C7_sweep_exact_and_idempotent 1001 _ (by decide)⟩

/-- Claim C8: when the deployment work has succeeded and the single
notification call reports failure (`notify_success = false`), the tail of
`process_task` behaves exactly as on notification success and records the
tracker entry as `"completed"` with the deployment result attached — the
notification is not retried (its boolean outcome is consumed once and does
not influence the recorded state). -/
theorem claim_C8_notify_failure_still_completed (tracker : Tracker)
    (key : RequestKey) (now : ℚ) (d : Deployment) :
    process_task_record tracker key now d false
        = process_task_record tracker key now d true
    ∧ dget (process_task_record tracker key now d false) key
        = some ⟨"completed", now, some d, none⟩ := by
  refine ⟨rfl, ?_⟩
  show dget (dinsert tracker key _) key = _
  exact dget_dinsert_self _ _ _

/-! ## Request model (`models.py`) -/

/-- The pydantic type `Union[str, List[str]]` of the `checks` field of
`TaskRequest`. -/
inductive ChecksField where
  | strVal (s : String)
  | listVal (l : List String)
deriving DecidableEq, Repr

/-- `TaskRequest.normalize_checks` (models.py lines 24-30): a bare string is
wrapped into a one-element list, a list is returned unchanged. -/
def normalize_checks : ChecksField → List String
  | ChecksField.strVal s => [s]
  | ChecksField.listVal l => l

/-- Claim C10: a `checks` field that is a single string is accepted by the
request model and normalized to the one-element list containing exactly that
string before any processing (the pydantic field validator runs at model
construction); a field already carrying a list passes through unchanged. -/
theorem claim_C10_checks_normalization (s : String) (l : List String) :
    normalize_checks (ChecksField.strVal s) = [s]
    ∧ normalize_checks (ChecksField.listVal l) = l :=
  ⟨rfl, rfl⟩

/-! ## String scanning helpers

Executable models of the Python string and `re` operations the validator and
the generator use.  All regular expressions in the source are built from
literals, the classes `\s`, `\w`, `[a-zA-Z]`, `[^'"]`, `['"]` and the
quantifiers `+`, `*`, `{4,}`, `.*?`; on these, leftmost-match search with
maximal/lazy munch is implemented directly on character lists.  Character
classes are modelled at ASCII (all text the claims exercise is ASCII). -/

/-- `sub` is a prefix of `l`. -/
def listStartsWith {α : Type} [DecidableEq α] : List α → List α → Bool
  | _, [] => true
  | [], _ :: _ => false
  | a :: as, b :: bs => decide (a = b) && listStartsWith as bs

/-- `s.find(sub)` restricted to success: index of the leftmost occurrence. -/
def listFindSub {α : Type} [DecidableEq α] (sub : List α) : List α → Option Nat
  | [] => if sub.isEmpty then some 0 else none
  | a :: t =>
    if listStartsWith (a :: t) sub then some 0 else (listFindSub sub t).map (· + 1)

/-- Python `sub in s` (substring containment). -/
def strContains (s sub : String) : Bool :=
  (listFindSub sub.toList s.toList).isSome

/-- Python `s.lower()` (ASCII); defined structurally on the character list so
that concrete instances evaluate. -/
def pyLower (s : String) : String :=
  String.mk (s.toList.map Char.toLower)

/-- Leftmost-position search: the first position (scanning left to right) at
which the positional matcher `f` succeeds. -/
def firstSome {β : Type} (f : List Char → Option β) : List Char → Option β
  | [] => f []
  | a :: t =>
    match f (a :: t) with
    | some r => some r
    | none => firstSome f t

/-- True when the positional predicate `f` holds at some position. -/
def anySuffixHolds (f : List Char → Bool) : List Char → Bool
  | [] => f []
  | a :: t => f (a :: t) || anySuffixHolds f t

/-- Python `\s` (ASCII portion). -/
def isPySpace (c : Char) : Bool :=
  c = ' ' || c = '\t' || c = '\n' || c = '\r' || c = '\x0b' || c = '\x0c'

/-- The character class `['"]`. -/
def isQuoteChar (c : Char) : Bool := c = '\x27' || c = '"'

/-- The class `[a-zA-Z]`. -/
def isAsciiLetter (c : Char) : Bool :=
  ('a' ≤ c && c ≤ 'z') || ('A' ≤ c && c ≤ 'Z')

/-- Python `\w` (ASCII portion): letters, digits, underscore. -/
def isWordChar (c : Char) : Bool := isAsciiLetter c || c.isDigit || c = '_'

/-- Case-insensitive character equality (re.IGNORECASE at ASCII). -/
def ciEqChar (a b : Char) : Bool := a.toLower = b.toLower

/-- Case-insensitive prefix test. -/
def ciStartsWith : List Char → List Char → Bool
  | _, [] => true
  | [], _ :: _ => false
  | a :: as, b :: bs => ciEqChar a b && ciStartsWith as bs

/-- Case-insensitive leftmost substring search. -/
def ciFindSub (sub : List Char) : List Char → Option Nat
  | [] => if sub.isEmpty then some 0 else none
  | a :: t =>
    if ciStartsWith (a :: t) sub then some 0 else (ciFindSub sub t).map (· + 1)

/-- `s.strip()`: drop Python whitespace from both ends. -/
def pyStrip (s : String) : String :=
  String.mk (((s.toList.dropWhile isPySpace).reverse.dropWhile isPySpace).reverse)

/-- `s.endswith(suffix)`. -/
def strEndsWith (s suffix : String) : Bool :=
  listStartsWith s.toList.reverse suffix.toList.reverse

/-! ## Check-evaluation engine (`services/validator.py`) -/

/-- The per-check result dict `{check, passed, message}`; `passed` is the
tri-state `True` / `False` / `None`. -/
structure CheckResult where
  check : String
  passed : Option Bool
  message : String
deriving DecidableEq, Repr

/-- A generated file set: Python `dict[str, str]` of path to content. -/
abbrev FileSet := List (String × String)

/-- Positional matcher for the id-extraction pattern `id=['"]([^'"]+)['"]`
of `_validate_single_check` (validator.py line 446), applied to the ORIGINAL
check text (this regex is case-sensitive): the literal `id=`, either quote,
a non-empty greedy run of non-quote characters, a closing quote of either
kind.  Returns the captured group. -/
def idCaptureAt : List Char → Option String
  | 'i' :: 'd' :: '=' :: q :: rest =>
    if isQuoteChar q then
      let run := rest.takeWhile (fun c => !isQuoteChar c)
      if run.isEmpty then none
      else
        match rest.drop run.length with
        | c :: _ => if isQuoteChar c then some (String.mk run) else none
        | [] => none
    else none
  | _ => none

/-- `re.search(r"id=['\"]([^'\"]+)['\"]", check)`: leftmost match, captured
id. -/
def extract_check_id (check : String) : Option String :=
  firstSome idCaptureAt check.toList

/-- Positional matcher for the fallback presence pattern
`id\s*=\s*["'](<target>)["']` with `re.IGNORECASE`
(validator.py line 471). -/
def idAttrAt (target : List Char) (l : List Char) : Bool :=
  match l with
  | a :: b :: rest =>
    ciEqChar a 'i' && ciEqChar b 'd' &&
    (match rest.dropWhile isPySpace with
     | '=' :: r2 =>
       (match r2.dropWhile isPySpace with
        | q :: r4 =>
          isQuoteChar q && ciStartsWith r4 target &&
          (match r4.drop target.length with
           | c :: _ => isQuoteChar c
           | [] => false)
        | [] => false)
     | _ => false)
  | _ => false

/-- `re.search(id_pattern, html, re.IGNORECASE)` for the escaped target id. -/
def html_contains_id (html required_id : String) : Bool :=
  anySuffixHolds (idAttrAt required_id.toList) html.toList

/-- Positional matcher for `^#+\s` (one or more `#` then a whitespace). -/
def headingAt (l : List Char) : Bool :=
  match l with
  | '#' :: rest =>
    (match rest.dropWhile (fun c => c = '#') with
     | c :: _ => isPySpace c
     | [] => false)
  | _ => false

/-- Scan for `^#+\s` at every line start (`re.MULTILINE`): position 0 and
every position following a newline. -/
def headingGo : List Char → Bool → Bool
  | [], _ => false
  | c :: t, atStart => (atStart && headingAt (c :: t)) || headingGo t (c = '\n')

/-- `re.search(r'^#+\s', s, re.MULTILINE)` as a Boolean. -/
def hasHeadingLine (s : String) : Bool :=
  headingGo s.toList true

/-- Positional matcher for `function\s+\w+\s*\(` (the body of the pattern
`\bfunction\s+\w+\s*\(` of validator.py line 568). -/
def funcDefAt (l : List Char) : Bool :=
  listStartsWith l "function".toList &&
  (let r := l.drop 8
   !(r.takeWhile isPySpace).isEmpty &&
   (let r2 := r.dropWhile isPySpace
    !(r2.takeWhile isWordChar).isEmpty &&
    (match (r2.dropWhile isWordChar).dropWhile isPySpace with
     | '(' :: _ => true
     | _ => false)))

/-- Positional matcher for `const\s+\w+\s*=\s*\(` (the body of the pattern
`\bconst\s+\w+\s*=\s*\(` of validator.py line 570). -/
def constDefAt (l : List Char) : Bool :=
  listStartsWith l "const".toList &&
  (let r := l.drop 5
   !(r.takeWhile isPySpace).isEmpty &&
   (let r2 := r.dropWhile isPySpace
    !(r2.takeWhile isWordChar).isEmpty &&
    (match (r2.dropWhile isWordChar).dropWhile isPySpace with
     | '=' :: r3 =>
       (match r3.dropWhile isPySpace with
        | '(' :: _ => true
        | _ => false)
     | _ => false)))

/-- Word-boundary search: the positional matcher `f` (whose pattern begins
with a word character) holds at position 0 or at a position whose preceding
character is not a word character — the `\b` of the source patterns. -/
def boundaryScanGo (f : List Char → Bool) : List Char → Bool
  | [] => false
  | c :: t => (!isWordChar c && f t) || boundaryScanGo f t

def boundaryScan (f : List Char → Bool) (l : List Char) : Bool :=
  f l || boundaryScanGo f l

/-- Scanner for `re.findall(r'\b[a-zA-Z]{4,}\b', s)`: the ASCII-letter runs
of length at least 4 that are flanked on both sides by a non-word character
or a string edge.  The state is the run accumulated so far (reversed)
together with the flag telling whether the run started at a word boundary. -/
def wordsGo : List Char → Bool → Option (List Char × Bool) → List String
  | [], _, cur =>
    (match cur with
     | some (run, ok) =>
       if ok && decide (4 ≤ run.length) then [String.mk run.reverse] else []
     | none => [])
  | c :: t, prevWord, cur =>
    if isAsciiLetter c then
      match cur with
      | some (run, ok) => wordsGo t true (some (c :: run, ok))
      | none => wordsGo t true (some ([c], !prevWord))
    else
      match cur with
      | some (run, ok) =>
        if ok && !isWordChar c && decide (4 ≤ run.length) then
          String.mk run.reverse :: wordsGo t (isWordChar c) none
        else wordsGo t (isWordChar c) none
      | none => wordsGo t (isWordChar c) none

def findAlphaWords (s : String) : List String :=
  wordsGo s.toList false none

/-- Guard of check 1 of `_validate_single_check` (validator.py line 379). -/
def guard_license (cl : String) : Bool :=
  strContains cl "mit license" || (strContains cl "mit" && strContains cl "license")

/-- Guard of check 2 (validator.py line 405). -/
def guard_readme (cl : String) : Bool :=
  strContains cl "readme" &&
    (strContains cl "professional" || strContains cl "complete")

/-- Guard of check 3 (validator.py line 443). -/
def guard_element (cl : String) : Bool :=
  strContains cl "element" && strContains cl "id="

/-- Guard of check 4 (validator.py line 498). -/
def guard_bootstrap (cl : String) : Bool :=
  strContains cl "bootstrap" && (strContains cl "cdn" || strContains cl "load")

/-- Guard of check 5 (validator.py line 551). -/
def guard_behavior (cl : String) : Bool :=
  ["perform", "operation", "calculat", "arithmetic"].any (fun w => strContains cl w)

/-- A check text that matches none of the five structured rules (the spec
calls its classification `UnclassifiedCheck`). -/
def isUnclassifiedCheck (check : String) : Bool :=
  !guard_license (pyLower check) && !guard_readme (pyLower check) &&
  !guard_element (pyLower check) && !guard_bootstrap (pyLower check) &&
  !guard_behavior (pyLower check)

/-- The Bootstrap CDN substrings of validator.py lines 505-512. -/
def bootstrap_cdns : List String :=
  ["cdn.jsdelivr.net/npm/bootstrap", "stackpath.bootstrapcdn.com/bootstrap",
   "maxcdn.bootstrapcdn.com/bootstrap", "getbootstrap.com",
   "bootstrap.min.css", "bootstrap.min.js"]

/-- The stopword list of check 6 (validator.py line 612). -/
def check6_stopwords : List String :=
  ["page", "element", "have", "must", "should", "repo", "file"]

/-- `_validate_single_check` (validator.py lines 354-628).

The six `if` blocks of the source all return inside every branch once their
guard matched, so they are embedded as an if-chain.  `bs4_find html id`
models `BeautifulSoup(html, "html.parser").find(id=id) is not None` when the
optional structural parser is importable and parses without error, and
`false` when it is unavailable (the source then falls through to the regex
match, which is embedded concretely).  Messages that interpolate runtime
values are kept as their constant skeletons; no claim depends on message
text. -/
def validate_single_verdict (bs4_find : String → String → Bool)
    (files : FileSet) (check : String) : Option Bool × String :=
  let cl := pyLower check
  if guard_license cl then
    match dget files "LICENSE" with
    | some lic =>
      if strContains (pyLower lic) "mit" then
        (some true, "MIT License found")
      else
        (some false, "LICENSE exists but does not appear to be MIT")
    | none => (some false, "LICENSE file missing")
  else if guard_readme cl then
    match dget files "README.md" with
    | some readme =>
      let has_headings := hasHeadingLine readme
      let has_content := decide (readme.length > 200)
      let has_sections := strContains readme "##"
      if has_headings && has_content && has_sections then
        (some true, "README appears professional")
      else
        (some false, "README quality issues")
    | none => (some false, "README.md missing")
  else if guard_element cl then
    match extract_check_id check with
    | some required_id =>
      (match dget files "index.html" with
       | some html =>
         if bs4_find html required_id then
           (some true, "Element found")
         else if html_contains_id html required_id then
           (some true, "Element found (regex match)")
         else
           (some false, "Element NOT found in HTML")
       | none =>
         (some false, "index.html missing, cannot check for element"))
    | none => (none, "Could not extract ID from check string")
  else if guard_bootstrap cl then
    match dget files "index.html" with
    | some html =>
      let found_cdn := bootstrap_cdns.any (fun c => strContains html c)
      if found_cdn then
        if strContains cl "5" || strContains cl "bootstrap 5" then
          if strContains html "/5." || strContains html "bootstrap@5" then
            (some true, "Bootstrap 5 CDN link found")
          else
            (some false, "Bootstrap found but version may not be 5")
        else (some true, "Bootstrap CDN link found")
      else (some false, "No Bootstrap CDN link found in HTML")
    | none => (some false, "index.html missing")
  else if guard_behavior cl then
    let code0 :=
      match dget files "index.html" with
      | some html => html
      | none => ""
    let code_to_check :=
      match dget files "script.js" with
      | some js => code0 ++ "\n" ++ js
      | none => code0
    let has_functions :=
      boundaryScan funcDefAt code_to_check.toList
        || strContains code_to_check "=>"
        || boundaryScan constDefAt code_to_check.toList
    let has_operators :=
      [" + ", " - ", " * ", " / ", "+=", "-=", "*=", "/="].any
        (fun op => strContains code_to_check op)
    let has_calc_keywords :=
      ["calculate", "compute", "result", "sum", "total"].any
        (fun w => strContains (pyLower code_to_check) w)
    if has_functions && has_operators then
      (some true, "Code contains functions and arithmetic operations")
    else if has_operators && has_calc_keywords then
      (some true, "Code contains arithmetic operations and calculation logic")
    else
      (some false, "Code may not perform operations")
  else
    match dget files "index.html" with
    | some html =>
      let keywords :=
        (findAlphaWords cl).filter (fun k => !check6_stopwords.contains k)
      if !keywords.isEmpty then
        let found :=
          (keywords.filter (fun kw => strContains (pyLower html) kw)).length
        if decide (2 * found ≥ keywords.length) then
          (none,
            "Some keywords found, but cannot fully validate programmatically")
        else
          (none,
            "Cannot validate this check programmatically (manual review needed)")
      else
        (none,
          "Cannot validate this check programmatically (manual review needed)")
    | none =>
      (none,
        "Cannot validate this check programmatically (manual review needed)")

/-- `_validate_single_check` assembled into the result dict: every return
site of the source carries `"check": check` verbatim next to the
`passed`/`message` pair computed by `validate_single_verdict`. -/
def validate_single_check (bs4_find : String → String → Bool)
    (files : FileSet) (check : String) : CheckResult :=
  ⟨check, (validate_single_verdict bs4_find files check).1,
    (validate_single_verdict bs4_find files check).2⟩

/-- The aggregate result of `validate_against_checks`. -/
structure ChecksReport where
  all_passed : Bool
  passed_count : Nat
  failed_count : Nat
  unknown_count : Nat
  total_checks : Nat
  results : List CheckResult
deriving Repr

/-- `validate_against_checks` (validator.py lines 312-352). -/
def validate_against_checks (bs4_find : String → String → Bool)
    (files : FileSet) (checks : List String) : ChecksReport :=
  let results := checks.map (fun c => validate_single_check bs4_find files c)
  let passed_count := results.countP (fun r => decide (r.passed = some true))
  let failed_count := results.countP (fun r => decide (r.passed = some false))
  let unknown_count := results.countP (fun r => decide (r.passed = none))
  { all_passed := decide (failed_count = 0) && decide (unknown_count = 0)
    passed_count := passed_count
    failed_count := failed_count
    unknown_count := unknown_count
    total_checks := checks.length
    results := results }

theorem validate_single_check_check_eq (bs4_find : String → String → Bool)
    (files : FileSet) (check : String) :
    (validate_single_check bs4_find files check).check = check := rfl

theorem tri_count (l : List CheckResult) :
    l.countP (fun r => decide (r.passed = some true))
      + l.countP (fun r => decide (r.passed = some false))
      + l.countP (fun r => decide (r.passed = none)) = l.length := by
  induction l with
  | nil => rfl
  | cons r t ih =>
    simp only [List.countP_cons, List.length_cons]
    rcases hp : r.passed with _ | b
    · simp only [hp]
      simp
      omega
    · cases b <;> simp only [hp] <;> simp <;> omega

/-- Claim C9: `validate_against_checks` returns exactly one `CheckResult` per
input check, in input order (the results list is the map of the single-check
evaluator over the checks, and each result carries its own check text), and
the tri-state tallies satisfy
`passed_count + failed_count + unknown_count = total_checks = checks.length`. -/
theorem claim_C9_report_shape (bs4_find : String → String → Bool)
    (files : FileSet) (checks : List String) :
    (validate_against_checks bs4_find files checks).results
        = checks.map (fun c => validate_single_check bs4_find files c)
    ∧ (∀ c, (validate_single_check bs4_find files c).check = c)
    ∧ (validate_against_checks bs4_find files checks).passed_count
        + (validate_against_checks bs4_find files checks).failed_count
        + (validate_against_checks bs4_find files checks).unknown_count
        = (validate_against_checks bs4_find files checks).total_checks
    ∧ (validate_against_checks bs4_find files checks).total_checks
        = checks.length := by
  refine ⟨rfl, fun c => validate_single_check_check_eq bs4_find files c, ?_, rfl⟩
  show (checks.map _).countP _ + (checks.map _).countP _ + (checks.map _).countP _
      = checks.length
  rw [tri_count]
  exact List.length_map _ _

/-- Claim C5: a check that matches none of the five structured rules (license,
readme-quality, element-presence, library-loaded, behaviour) is evaluated to
the `unknown` verdict (`passed = None`) — never true and never false —
whatever the file set contains and whatever the optional structural parser
would answer. -/
theorem claim_C5_unclassified_always_unknown (bs4_find : String → String → Bool)
    (files : FileSet) (check : String) (h : isUnclassifiedCheck check = true) :
    (validate_single_check bs4_find files check).passed = none := by
  unfold isUnclassifiedCheck at h
  simp only [Bool.and_eq_true, Bool.not_eq_true'] at h
  obtain ⟨⟨⟨⟨h1, h2⟩, h3⟩, h4⟩, h5⟩ := h
  show (validate_single_verdict bs4_find files check).1 = none
  unfold validate_single_verdict
  simp only [h1, h2, h3, h4, h5, Bool.false_eq_true, if_false]
  repeat' split
  all_goals rfl

/-- Witness for claim C5 at a concrete unclassified check and a non-trivial
file set. -/
theorem claim_C5_unclassified_witness :
    isUnclassifiedCheck "App works offline" = true
    ∧ (validate_single_check (fun _ _ => false)
        [("index.html", "works offline today")] "App works offline").passed
      = none :=
  ⟨by decide,
   claim_C5_unclassified_always_unknown (fun _ _ => false)
     [("index.html", "works offline today")] "App works offline" (by decide)⟩

/-- Counterexample to claim C4 as stated: for the element-presence check
`Page has element with id='result'` (which carries an extractable quoted id)
evaluated against a file set WITHOUT a root page, the verdict is false — so a
false verdict does not occur only when `index.html` exists. -/
theorem claim_C4_counterexample :
    dget ([] : FileSet) "index.html" = none
    ∧ (validate_single_check (fun _ _ => false) ([] : FileSet)
        "Page has element with id=\x27result\x27").passed = some false := by
  constructor
  · rfl
  · decide

/-- Claim C4, amended: for every element-presence check carrying an
extractable quoted id, evaluation returns false when the root page is MISSING
as well as when it exists without the id; when the root page contains an
element whose id attribute equals the target (the attribute pattern
`id\s*=\s*["']target["']`, or the structural parse finds it), the verdict is
true. -/
theorem claim_C4_element_presence_amended (bs4_find : String → String → Bool)
    (files : FileSet) (check required_id : String)
    (h1 : guard_license (pyLower check) = false)
    (h2 : guard_readme (pyLower check) = false)
    (h3 : guard_element (pyLower check) = true)
    (hid : extract_check_id check = some required_id) :
    (dget files "index.html" = none →
      (validate_single_check bs4_find files check).passed = some false)
    ∧ (∀ html, dget files "index.html" = some html →
        html_contains_id html required_id = true →
        (validate_single_check bs4_find files check).passed = some true)
    ∧ (∀ html, dget files "index.html" = some html →
        bs4_find html required_id = false →
        html_contains_id html required_id = false →
        (validate_single_check bs4_find files check).passed = some false) := by
  show (_ →
      (validate_single_verdict bs4_find files check).1 = some false)
    ∧ (∀ html, _ → _ →
      (validate_single_verdict bs4_find files check).1 = some true)
    ∧ (∀ html, _ → _ → _ →
      (validate_single_verdict bs4_find files check).1 = some false)
  unfold validate_single_verdict
  simp only [h1, h2, h3, hid, Bool.false_eq_true, if_false, if_true]
  refine ⟨?_, ?_, ?_⟩
  · intro hnone
    simp [hnone]
  · intro html hsome hmatch
    simp only [hsome]
    cases hb : bs4_find html required_id <;> simp [hb, hmatch]
  · intro html hsome hb hmatch
    simp [hsome, hb, hmatch]

/-- Witness for the amended claim C4: the check extracts id `result` and the
root page carries `id='result'`, so the verdict is true. -/
theorem claim_C4_amended_witness :
    (validate_single_check (fun _ _ => false)
        [("index.html", "<div id=\x27result\x27>0</div>")]
        "Page has element with id=\x27result\x27").passed = some true :=
  (claim_C4_element_presence_amended (fun _ _ => false)
      [("index.html", "<div id=\x27result\x27>0</div>")]
      "Page has element with id=\x27result\x27" "result"
      (by decide) (by decide) (by decide) (by decide)).2.1
    "<div id=\x27result\x27>0</div>" (by decide) (by decide)

/-! ## Artifact merge engine (`services/llm_generator.py`)

The external LLM call itself is out of scope (§6 of the spec): the
generator-response TEXT is a parameter, and everything `llm_generator.py`
computes from it is embedded.  The `json.loads` call on the brace-delimited
slice of the response is modelled by the parameter `json_parse`, returning
the string-to-string files mapping the source extracts from the parsed
object (`data["files"]` when present, else `data`), or `none` on any parse
failure.  The `unicode_escape` codec of the secondary escape-repair pass is
modelled by the parameter `uesc`. -/

/-- Index of the first occurrence of character `c` (Python `s.find(c)`
restricted to success). -/
def firstIdxOf (c : Char) : List Char → Option Nat
  | [] => none
  | a :: t => if a = c then some 0 else (firstIdxOf c t).map (· + 1)

/-- Index of the last occurrence of character `c` (Python `s.rfind(c)`
restricted to success). -/
def lastIdxOf (c : Char) (l : List Char) : Option Nat :=
  match firstIdxOf c l.reverse with
  | some i => some (l.length - 1 - i)
  | none => none

/-- The escape-normalisation of `_parse_response` (llm_generator.py lines
543-566): five literal `str.replace` passes, then — for markup / script /
style / data files whose first 500 characters still contain a literal
escape — the `unicode_escape` repair modelled by `uesc` (which also covers
the `except` branch that keeps the content unchanged). -/
def fix_escapes (uesc : String → String) (filename content : String) : String :=
  let c := content.replace "\\n" "\n"
  let c := c.replace "\\t" "\t"
  let c := c.replace "\\r" "\r"
  let c := c.replace "\\\"" "\""
  let c := c.replace "\\\x27" "\x27"
  if [".html", ".htm", ".js", ".css", ".json"].any (fun e => strEndsWith filename e) then
    let test_str := String.mk (c.toList.take 500)
    if strContains test_str "\\n" || strContains test_str "\\\"" ||
        strContains test_str "\\t" then
      uesc c
    else c
  else c

/-- Positional matcher for a fenced block: one of the openers (tried in
order, modelling the ordered alternation of the pattern), then the lazy
`(.*?)` up to the first closing fence; the capture is `.strip()`ped. -/
def fencedBlockAt (openers : List String) (l : List Char) : Option String :=
  match openers.find? (fun o => listStartsWith l o.toList) with
  | some o =>
    let rest := l.drop o.length
    (match listFindSub "```".toList rest with
     | some j => some (pyStrip (String.mk (rest.take j)))
     | none => none)
  | none => none

/-- `re.search` for a fenced block pattern such as ```` ```html\n(.*?)``` ````
with `re.DOTALL`: leftmost opener position from which a closing fence
exists. -/
def fencedBlock (text : String) (openers : List String) : Option String :=
  firstSome (fencedBlockAt openers) text.toList

/-- Positional matcher for `<!DOCTYPE html>.*?</html>` with
`re.IGNORECASE | re.DOTALL`; the whole match (group 0) is captured. -/
def doctypeAt (l : List Char) : Option String :=
  if ciStartsWith l "<!doctype html>".toList then
    match ciFindSub "</html>".toList (l.drop 15) with
    | some j => some (String.mk (l.take (15 + j + 7)))
    | none => none
  else none

def doctypeCapture (text : String) : Option String :=
  firstSome doctypeAt text.toList

/-- `_extract_code_blocks` (llm_generator.py lines 591-621): the fenced-block
fallback parser. -/
def extract_code_blocks (text : String) : FileSet :=
  let files : FileSet := []
  let files :=
    match fencedBlock text ["```html\n"] with
    | some c => dinsert files "index.html" c
    | none => files
  let files :=
    match fencedBlock text ["```css\n"] with
    | some c => dinsert files "style.css" c
    | none => files
  let files :=
    match fencedBlock text ["```javascript\n", "```js\n"] with
    | some c => dinsert files "script.js" c
    | none => files
  if files.isEmpty then
    match doctypeCapture text with
    | some c => [("index.html", c)]
    | none => []
  else files

/-- `_parse_response` (llm_generator.py lines 519-589): slice the response
between the first `\x7b` and the last `\x7d`; on a successful JSON parse
(`json_parse`) normalise the escapes of every value; otherwise fall back to
fenced-block extraction.  Data-URI attachments are stored last under their
names (`atts` carries the already-decoded pairs). -/
def parse_response (json_parse : String → Option FileSet) (uesc : String → String)
    (response_text : String) (atts : List (String × String)) : FileSet :=
  let files :=
    match firstIdxOf '\x7b' response_text.toList,
        lastIdxOf '\x7d' response_text.toList with
    | some s, some e =>
      if s < e + 1 then
        match json_parse (String.mk ((response_text.toList.take (e + 1)).drop s)) with
        | some data => data.map (fun p => (p.1, fix_escapes uesc p.1 p.2))
        | none => extract_code_blocks response_text
      else extract_code_blocks response_text
    | _, _ => extract_code_blocks response_text
  atts.foldl (fun acc a => dinsert acc a.1 a.2) files

/-- `_generate_mit_license` (llm_generator.py lines 623-647);
`datetime.now().year` is the parameter `year`. -/
def generate_mit_license (year : Nat) : String :=
  "MIT License\n\nCopyright (c) " ++ toString year ++ " Student Project\n\n" ++
  "Permission is hereby granted, free of charge, to any person obtaining a copy\n" ++
  "of this software and associated documentation files (the \"Software\"), to deal\n" ++
  "in the Software without restriction, including without limitation the rights\n" ++
  "to use, copy, modify, merge, publish, distribute, sublicense, and/or sell\n" ++
  "copies of the Software, and to permit persons to whom the Software is\n" ++
  "furnished to do so, subject to the following conditions:\n\n" ++
  "The above copyright notice and this permission notice shall be included in all\n" ++
  "copies or substantial portions of the Software.\n\n" ++
  "THE SOFTWARE IS PROVIDED \"AS IS\", WITHOUT WARRANTY OF ANY KIND, EXPRESS OR\n" ++
  "IMPLIED, INCLUDING BUT NOT LIMITED TO THE WARRANTIES OF MERCHANTABILITY,\n" ++
  "FITNESS FOR A PARTICULAR PURPOSE AND NONINFRINGEMENT. IN NO EVENT SHALL THE\n" ++
  "AUTHORS OR COPYRIGHT HOLDERS BE LIABLE FOR ANY CLAIM, DAMAGES OR OTHER\n" ++
  "LIABILITY, WHETHER IN AN ACTION OF CONTRACT, TORT OR OTHERWISE, ARISING FROM,\n" ++
  "OUT OF OR IN CONNECTION WITH THE SOFTWARE OR THE USE OR OTHER DEALINGS IN THE\n" ++
  "SOFTWARE.\n"

/-- Stable insertion into an ascending list (for Python `sorted`). -/
def sortedInsert (s : String) : List String → List String
  | [] => [s]
  | t :: ts => if s ≤ t then s :: t :: ts else t :: sortedInsert s ts

/-- Python `sorted` on strings (lexicographic by code point). -/
def pySorted (l : List String) : List String :=
  l.foldr sortedInsert []

/-- `_generate_readme` (llm_generator.py lines 649-721);
`datetime.utcnow().strftime(...)` is the parameter `now_str`. -/
def generate_readme (brief task_id : String) (files : FileSet) (now_str : String) :
    String :=
  let file_list :=
    String.intercalate "\n"
      (((pySorted (files.map Prod.fst)).filter (fun n => n != "README.md")).map
        (fun n => "- `" ++ n ++ "`"))
  "# " ++ task_id ++ "\n\n## Project Summary\n\n" ++ brief ++
  "\n\n**Generated:** " ++ now_str ++ " UTC\n\n## Files\n\n" ++ file_list ++
  "\n\n## Setup Instructions\n\n1. Clone this repository:\n   ```bash\n" ++
  "   git clone <repository-url>\n   cd " ++ task_id ++ "\n   ```\n\n" ++
  "2. Open in browser:\n   - Simply open `index.html` in your web browser\n" ++
  "   - Or use a local server:\n     ```bash\n     python -m http.server 8000\n" ++
  "     # Visit http://localhost:8000\n     ```\n\n## Usage\n\n" ++
  "Open the application in a modern web browser. The app will automatically " ++
  "handle the requirements as specified in the project brief.\n\n" ++
  "## Code Explanation\n\n### Main Components\n\n" ++
  "- **index.html**: Main application interface and structure\n" ++
  "- **style.css**: Styling and layout (if separate file)\n" ++
  "- **script.js**: Application logic and interactivity (if separate file)\n\n" ++
  "The application is built using standard web technologies (HTML5, CSS3, " ++
  "JavaScript) and may include external libraries loaded via CDN for " ++
  "additional functionality.\n\n### Key Features\n\n" ++
  "The application implements all requirements specified in the brief, with " ++
  "proper error handling and user-friendly interface design.\n\n" ++
  "## Technical Details\n\n" ++
  "- Pure client-side application (no backend required)\n" ++
  "- External libraries loaded from CDN (no build process needed)\n" ++
  "- Responsive design for various screen sizes\n" ++
  "- Modern browser required (Chrome, Firefox, Safari, Edge)\n\n" ++
  "## License\n\n" ++
  "This project is licensed under the MIT License - see the LICENSE file for " ++
  "details.\n\n## Deployment\n\n" ++
  "This application is deployed on GitHub Pages at the repository\x27s Pages URL.\n"

/-- `_create_new_app` (llm_generator.py lines 72-110) after the LLM response
has been parsed: the reserved `LICENSE` and `README.md` entries are written
over the parsed files (the README is generated from the file set that
already includes the license). -/
def create_new_app (brief task_id : String) (parsed : FileSet) (year : Nat)
    (now_str : String) : FileSet :=
  let files := dinsert parsed "LICENSE" (generate_mit_license year)
  dinsert files "README.md" (generate_readme brief task_id files now_str)

/-- `_update_existing_app` (llm_generator.py lines 112-201) after the LLM
response has been parsed into `updated_files`: copy the existing files,
overlay the parsed partial result (`dict.update`), unconditionally regenerate
`README.md` from the merged state, and create `LICENSE` only when the merged
state lacks one. -/
def update_existing_app (update_brief task_id : String)
    (existing_files updated_files : FileSet) (year : Nat) (now_str : String) :
    FileSet :=
  let final_files := dupdate existing_files updated_files
  let readme_brief :=
    "Original: " ++ dgetD existing_files "README.md" "N/A" ++
      "\n\nUpdate: " ++ update_brief
  let final_files :=
    dinsert final_files "README.md"
      (generate_readme readme_brief task_id final_files now_str)
  if dget final_files "LICENSE" = none then
    dinsert final_files "LICENSE" (generate_mit_license year)
  else final_files

/-- `generate_app` (llm_generator.py lines 39-70): round dispatch. -/
def generate_app (update_brief task_id : String) (round_num : Int)
    (existing_files : Option FileSet) (parsed : FileSet) (year : Nat)
    (now_str : String) : FileSet :=
  match existing_files with
  | some ex =>
    if round_num > 1 && !ex.isEmpty then
      update_existing_app update_brief task_id ex parsed year now_str
    else create_new_app update_brief task_id parsed year now_str
  | none => create_new_app update_brief task_id parsed year now_str

/-- `fix_validation_failures` (llm_generator.py lines 203-263): bucket the
failed checks by keyword, then regenerate at most `README.md` (via
`_fix_readme`, modelled by the parameter `fix_readme` which also absorbs its
internal try/except that returns the current content on failure) and at most
`index.html` (via `_fix_html`, modelled by `fix_html`). -/
def fix_validation_failures (fix_readme : String → String → List CheckResult → String)
    (fix_html : String → List CheckResult → String)
    (files : FileSet) (failed_checks : List CheckResult) (task_id : String) :
    FileSet :=
  if failed_checks.isEmpty then files
  else
    let readme_bucket :=
      failed_checks.filter (fun c => strContains (pyLower c.check) "readme")
    let index_bucket :=
      failed_checks.filter (fun c =>
        !strContains (pyLower c.check) "readme" &&
        (strContains (pyLower c.check) "element" ||
         strContains (pyLower c.check) "id=" ||
         strContains (pyLower c.check) "bootstrap"))
    let updated_files := files
    let updated_files :=
      if !readme_bucket.isEmpty then
        dinsert updated_files "README.md"
          (fix_readme task_id (dgetD files "README.md" "") readme_bucket)
      else updated_files
    let updated_files :=
      if !index_bucket.isEmpty then
        dinsert updated_files "index.html"
          (fix_html (dgetD files "index.html" "") index_bucket)
      else updated_files
    updated_files


/-- Counterexample to claim C2 as stated: for the generator response
`"hello"` — no JSON object, no fenced code block, no full markup page —
round-1 synthesis returns a file set WITHOUT the root page `index.html`;
only the license and the summary document are injected. -/
theorem claim_C2_counterexample :
    dget (create_new_app "Create a calculator app" "task-1"
        (parse_response (fun _ => none) (fun s => s) "hello" []) 2025 "ts")
      "index.html" = none := by decide

/-- Claim C2, amended: round-1 synthesis always returns a file set containing
the reserved license file `LICENSE` and summary document `README.md`, even
when the generator output omits them; the root page `index.html` is present
exactly when the parsed generator output (including stored attachments)
supplies it — it is not injected. -/
theorem claim_C2_round1_reserved_files (json_parse : String → Option FileSet)
    (uesc : String → String) (response_text : String)
    (atts : List (String × String)) (brief task_id : String) (year : Nat)
    (now_str : String) :
    dget (create_new_app brief task_id
        (parse_response json_parse uesc response_text atts) year now_str)
      "LICENSE" = some (generate_mit_license year)
    ∧ (dget (create_new_app brief task_id
        (parse_response json_parse uesc response_text atts) year now_str)
      "README.md").isSome = true
    ∧ dget (create_new_app brief task_id
        (parse_response json_parse uesc response_text atts) year now_str)
      "index.html"
      = dget (parse_response json_parse uesc response_text atts) "index.html" := by
  generalize parse_response json_parse uesc response_text atts = parsed
  refine ⟨?_, ?_, ?_⟩
  · show dget (dinsert (dinsert parsed "LICENSE" (generate_mit_license year))
        "README.md" _) "LICENSE" = _
    rw [dget_dinsert_ne _ _ _ _ (by decide), dget_dinsert_self]
  · show (dget (dinsert (dinsert parsed "LICENSE" (generate_mit_license year))
        "README.md" _) "README.md").isSome = true
    rw [dget_dinsert_self]
    rfl
  · show dget (dinsert (dinsert parsed "LICENSE" (generate_mit_license year))
        "README.md" _) "index.html" = _
    rw [dget_dinsert_ne _ _ _ _ (by decide), dget_dinsert_ne _ _ _ _ (by decide)]

/-- A definitional view of `_update_existing_app` once the regenerated README
text `r` and the license text `m` are abstracted: overlay, README insertion,
conditional license creation. -/
def merge_core (existing updated : FileSet) (r m : String) : FileSet :=
  if dget (dinsert (dupdate existing updated) "README.md" r) "LICENSE" = none then
    dinsert (dinsert (dupdate existing updated) "README.md" r) "LICENSE" m
  else dinsert (dupdate existing updated) "README.md" r

theorem merge_core_get_other (ex upd : FileSet) (r m : String) (k : String)
    (hkR : k ≠ "README.md") (hkL : k ≠ "LICENSE") :
    dget (merge_core ex upd r m) k = dget (dupdate ex upd) k := by
  unfold merge_core
  split
  · rw [dget_dinsert_ne _ _ _ _ hkL, dget_dinsert_ne _ _ _ _ hkR]
  · rw [dget_dinsert_ne _ _ _ _ hkR]

theorem merge_core_get_readme (ex upd : FileSet) (r m : String) :
    dget (merge_core ex upd r m) "README.md" = some r := by
  unfold merge_core
  split
  · rw [dget_dinsert_ne _ _ _ _ (by decide), dget_dinsert_self]
  · rw [dget_dinsert_self]

theorem merge_core_get_license (ex upd : FileSet) (r m : String) :
    dget (merge_core ex upd r m) "LICENSE"
      = some (dgetD (dupdate ex upd) "LICENSE" m) := by
  have hRL : dget (dinsert (dupdate ex upd) "README.md" r) "LICENSE"
      = dget (dupdate ex upd) "LICENSE" := dget_dinsert_ne _ _ _ _ (by decide)
  unfold merge_core
  cases hc : dget (dupdate ex upd) "LICENSE" with
  | none =>
    rw [if_pos (by rw [hRL, hc])]
    rw [dget_dinsert_self]
    unfold dgetD
    rw [hc]
  | some v =>
    rw [if_neg (by rw [hRL, hc]; exact fun hh => Option.noConfusion hh)]
    rw [hRL, hc]
    unfold dgetD
    rw [hc]

/-- Counterexample to claim C3 as stated: when the partial generator output
itself contains a license entry, the overlay lets it WIN over the existing
license, so the license is not carried over unchanged. -/
theorem claim_C3_counterexample :
    dget (update_existing_app "u" "t" [("index.html", "Y"), ("LICENSE", "L")]
        [("LICENSE", "X")] 2025 "ts") "LICENSE" = some "X"
    ∧ dget (update_existing_app "u" "t" [("index.html", "Y"), ("LICENSE", "L")]
        [("LICENSE", "X")] 2025 "ts") "LICENSE" ≠ some "L" := by decide

/-- Claim C3, amended: the round > 1 merge returns the existing files
overlaid with the partial generator output — each non-reserved path of the
partial output takes its new content, every other non-reserved existing path
keeps its old content — the summary document `README.md` is unconditionally
regenerated from the merged state, and the license file is created when the
MERGED state lacks one: it is carried over unchanged when the existing files
contain it and the partial output does not, but a license supplied by the
partial output wins over the existing one. -/
theorem claim_C3_merge_overlay (update_brief task_id : String)
    (existing updated : FileSet) (year : Nat) (now_str : String)
    (hnd : (updated.map Prod.fst).Nodup) :
    (∀ k v, k ≠ "README.md" → k ≠ "LICENSE" → dget updated k = some v →
      dget (update_existing_app update_brief task_id existing updated year
        now_str) k = some v)
    ∧ (∀ k, k ≠ "README.md" → k ≠ "LICENSE" → dget updated k = none →
      dget (update_existing_app update_brief task_id existing updated year
        now_str) k = dget existing k)
    ∧ dget (update_existing_app update_brief task_id existing updated year
        now_str) "README.md"
      = some (generate_readme
          ("Original: " ++ dgetD existing "README.md" "N/A" ++
            "\n\nUpdate: " ++ update_brief)
          task_id (dupdate existing updated) now_str)
    ∧ (dget updated "LICENSE" = none → dget existing "LICENSE" = none →
      dget (update_existing_app update_brief task_id existing updated year
        now_str) "LICENSE" = some (generate_mit_license year))
    ∧ (∀ v, dget updated "LICENSE" = none → dget existing "LICENSE" = some v →
      dget (update_existing_app update_brief task_id existing updated year
        now_str) "LICENSE" = some v)
    ∧ (∀ v, dget updated "LICENSE" = some v →
      dget (update_existing_app update_brief task_id existing updated year
        now_str) "LICENSE" = some v) := by
  have happ : update_existing_app update_brief task_id existing updated year
      now_str
      = merge_core existing updated
          (generate_readme
            ("Original: " ++ dgetD existing "README.md" "N/A" ++
              "\n\nUpdate: " ++ update_brief)
            task_id (dupdate existing updated) now_str)
          (generate_mit_license year) := rfl
  refine ⟨?_, ?_, ?_, ?_, ?_, ?_⟩
  · intro k v hkR hkL hupd
    rw [happ, merge_core_get_other _ _ _ _ _ hkR hkL,
      dget_dupdate_of_some _ _ _ _ hnd hupd]
  · intro k hkR hkL hupd
    rw [happ, merge_core_get_other _ _ _ _ _ hkR hkL,
      dget_dupdate_of_none _ _ _ hupd]
  · rw [happ, merge_core_get_readme]
  · intro hup hex
    rw [happ, merge_core_get_license]
    unfold dgetD
    rw [dget_dupdate_of_none _ _ _ hup, hex]
  · intro v hup hex
    rw [happ, merge_core_get_license]
    unfold dgetD
    rw [dget_dupdate_of_none _ _ _ hup, hex]
  · intro v hup
    rw [happ, merge_core_get_license]
    unfold dgetD
    rw [dget_dupdate_of_some _ _ _ _ hnd hup]

/-- Witness for the amended claim C3 at the instance named by the claim:
merging the partial output `{"index.html": "X"}` onto the existing files
`{"index.html": "Y", "LICENSE": "L"}` yields content `X` for the root page
and carries the license `L` over unchanged. -/
theorem claim_C3_merge_witness :
    dget (update_existing_app "u" "t" [("index.html", "Y"), ("LICENSE", "L")]
        [("index.html", "X")] 2025 "ts") "index.html" = some "X"
    ∧ dget (update_existing_app "u" "t" [("index.html", "Y"), ("LICENSE", "L")]
        [("index.html", "X")] 2025 "ts") "LICENSE" = some "L" :=
  ⟨(claim_C3_merge_overlay "u" "t" [("index.html", "Y"), ("LICENSE", "L")]
      [("index.html", "X")] 2025 "ts" (by decide)).1
    "index.html" "X" (by decide) (by decide) (by decide),
   (claim_C3_merge_overlay "u" "t" [("index.html", "Y"), ("LICENSE", "L")]
      [("index.html", "X")] 2025 "ts" (by decide)).2.2.2.2.1
    "L" (by decide) (by decide)⟩

/-- Claim C6: when every failed check is a ReadmeQualityCheck failure (its
text contains "readme" together with "professional" or "complete"), the
targeted remediation pass replaces at most the summary document `README.md`:
every other path of the file set is unchanged. -/
theorem claim_C6_remediation_frame
    (fix_readme : String → String → List CheckResult → String)
    (fix_html : String → List CheckResult → String) (files : FileSet)
    (failed_checks : List CheckResult) (task_id : String)
    (h : ∀ c ∈ failed_checks, guard_readme (pyLower c.check) = true) :
    ∀ k, k ≠ "README.md" →
      dget (fix_validation_failures fix_readme fix_html files failed_checks
        task_id) k = dget files k := by
  intro k hk
  have hidx : failed_checks.filter (fun c =>
      !strContains (pyLower c.check) "readme" &&
      (strContains (pyLower c.check) "element" ||
       strContains (pyLower c.check) "id=" ||
       strContains (pyLower c.check) "bootstrap")) = [] := by
    rw [List.filter_eq_nil_iff]
    intro c hc
    have hg := h c hc
    unfold guard_readme at hg
    rw [Bool.and_eq_true] at hg
    simp [hg.1]
  unfold fix_validation_failures
  split
  · rfl
  · rw [hidx]
    simp only [List.isEmpty_nil, Bool.not_true, Bool.false_eq_true, if_false]
    split
    · rw [dget_dinsert_ne _ _ _ _ hk]
    · rfl

/-- Witness for claim C6: a single failed ReadmeQualityCheck leaves
`index.html` byte-identical. -/
theorem claim_C6_remediation_witness :
    dget (fix_validation_failures (fun _ _ _ => "regenerated readme")
        (fun _ _ => "regenerated html")
        [("index.html", "<p>hi</p>"), ("README.md", "short"),
         ("LICENSE", "MIT License")]
        [⟨"README.md is professional and complete", some false,
          "README quality issues"⟩]
        "task-1") "index.html" = some "<p>hi</p>" :=
  claim_C6_remediation_frame (fun _ _ _ => "regenerated readme")
    (fun _ _ => "regenerated html")
    [("index.html", "<p>hi</p>"), ("README.md", "short"),
     ("LICENSE", "MIT License")]
    [⟨"README.md is professional and complete", some false,
      "README quality issues"⟩]
    "task-1" (by decide) "index.html" (by decide)

end Spec2Proof
